import Mathlib

/-!
Verification development for the SPY statistical analyzer
(`streamlit_app.py`): a shallow embedding of its return-classification
and statistical-aggregation engine, together with theorems settling the
specification's testable properties against this embedding.

Modelling conventions:
* pandas data frames become lists of records (`DailyRow`, `HourlyRow`,
  `MergedRow`), in row order;
* Python floats become `PyFloat`: either an exact rational or `nan`
  (the sources' arithmetic stays inside the rationals, except for the
  square root inside `std()`, which is handled by carrying the variance
  and recording exactly when the result is NaN);
* dates are abstracted to natural-number keys (only equality of dates
  is ever used by the source);
* raised Python exceptions become `Except` error values.
-/

/-- Day direction label, the `Day_Type` column of the daily frame:
`np.where(daily_data['Daily_Return'] >= 0, 'UP', 'DOWN')` (source
line 58). -/
inductive DayType
  | UP
  | DOWN
  deriving DecidableEq

/-- A Python float that is either an actual number (modelled as a
rational) or the IEEE NaN produced by `np.nan` and by pandas statistics
over too little data. -/
inductive PyFloat
  | num (q : ℚ)
  | nan
  deriving DecidableEq

/-- `daily_data['Daily_Return'] = Close.pct_change() * 100` followed by
`dropna()` (source lines 57 and 59): one percentage return per
consecutive pair of closes; the first bar, whose return is NaN, is
dropped.  Closes are assumed nonzero (real price data), so the rational
division is exact. -/
def pctChange100 (closes : List ℚ) : List ℚ :=
  (closes.zip closes.tail).map fun p => (p.2 - p.1) / p.1 * 100

/-- The `Day_Type` assignment of source line 58. -/
def dayTypeOf (r : ℚ) : DayType :=
  if 0 ≤ r then .UP else .DOWN

/-- One row of the classified daily frame after `dropna()`:
date key, `Daily_Return`, `Day_Type`. -/
structure DailyRow where
  date : ℕ
  dailyReturn : ℚ
  dayType : DayType
  deriving DecidableEq

/-- One row of the hourly frame after the processing of source lines
87-89: date key, `Hour`, `Hourly_Return` (NaN on the first bar of the
series). -/
structure HourlyRow where
  date : ℕ
  hour : ℕ
  hourlyReturn : PyFloat
  deriving DecidableEq

/-- One row of `hourly_merged` / `market_hours` (source lines 108-119):
an hourly row carrying its owning day's `Day_Type` and `Daily_Return`. -/
structure MergedRow where
  date : ℕ
  hour : ℕ
  hourlyReturn : PyFloat
  dayType : DayType
  dailyReturn : ℚ
  deriving DecidableEq

/-- The date-keyed lookup into the daily frame (`daily_lookup`, source
lines 104-105): the daily index has unique dates, so the first match is
the match. -/
def findDaily (daily : List DailyRow) (d : ℕ) : Option DailyRow :=
  daily.find? fun r => r.date == d

/-- The `how='inner'` merge of the hourly frame with the daily lookup on
`Date` (source lines 108-112): each hourly row is kept exactly when a
daily row shares its date, and is decorated with that daily row's
`Day_Type` and `Daily_Return`. -/
def mergeInner (daily : List DailyRow) (hourly : List HourlyRow) : List MergedRow :=
  hourly.filterMap fun h =>
    (findDaily daily h.date).map fun d =>
      { date := h.date, hour := h.hour, hourlyReturn := h.hourlyReturn,
        dayType := d.dayType, dailyReturn := d.dailyReturn }

/-- `hourly_merged.dropna(subset=['Hourly_Return'])` (source line 114). -/
def dropnaHourly (l : List MergedRow) : List MergedRow :=
  l.filter fun r => r.hourlyReturn != PyFloat.nan

/-- The market-hours restriction of source lines 117-119:
`(Hour >= 9) & (Hour <= 16)`. -/
def marketHoursFilter (l : List MergedRow) : List MergedRow :=
  l.filter fun r => decide (9 ≤ r.hour ∧ r.hour ≤ 16)

/-- The row pipeline of `merge_and_classify_data` (source lines
100-133): inner merge, `Hourly_Return` dropna, market-hours filter.
The per-row volatility-bucket column it also adds is `stdBucket` below;
the standard deviation it returns is computed from the daily frame. -/
def mergeAndClassify (daily : List DailyRow) (hourly : List HourlyRow) : List MergedRow :=
  marketHoursFilter (dropnaHourly (mergeInner daily hourly))

/-- The `Std_Bucket` column (source lines 125-131):
`pd.cut(|Daily_Return|, bins=[0, s, 2s, 3s, inf], include_lowest=True)`
with right-closed bins, i.e. `[0,s], (s,2s], (2s,3s], (3s,inf)`.
`pd.cut` itself requires strictly increasing bin edges, hence a
strictly positive standard deviation; under that precondition the
bucket of a value is computed by this ladder of comparisons. -/
def stdBucket (daily_std : ℚ) (r : ℚ) : Fin 4 :=
  if |r| ≤ daily_std then 0
  else if |r| ≤ 2 * daily_std then 1
  else if |r| ≤ 3 * daily_std then 2
  else 3

/-- The four bucket intervals named by the specification, as predicates
on the absolute daily return: `[0,s]`, `(s,2s]`, `(2s,3s]`, `(3s,∞)`. -/
def inBucketInterval (daily_std : ℚ) (j : Fin 4) (x : ℚ) : Prop :=
  match j with
  | 0 => 0 ≤ x ∧ x ≤ daily_std
  | 1 => daily_std < x ∧ x ≤ 2 * daily_std
  | 2 => 2 * daily_std < x ∧ x ≤ 3 * daily_std
  | 3 => 3 * daily_std < x

/-- Arithmetic mean of a list of rationals (`Series.mean` over the
non-NaN values). -/
def listMean (xs : List ℚ) : ℚ :=
  xs.sum / xs.length

/-- `Series.median`: middle element of the sorted values, or the mean
of the two middle elements for an even count. -/
def listMedian (xs : List ℚ) : ℚ :=
  let s := List.insertionSort (· ≤ ·) xs
  if s.length % 2 = 1 then s.getD (s.length / 2) 0
  else (s.getD (s.length / 2 - 1) 0 + s.getD (s.length / 2) 0) / 2

/-- Sample variance with `ddof=1` (the square of `Series.std`), meant
to be applied to at least two observations. -/
def sampleVar (xs : List ℚ) : ℚ :=
  (xs.map fun x => (x - listMean xs) ^ 2).sum / ((xs.length : ℚ) - 1)

/-- `Series.std(ddof=1)` is NaN exactly when fewer than 2 (non-NaN)
observations are present, and otherwise the square root of `sampleVar`.
Since no claim depends on the numeric value of a standard deviation —
only on whether it is NaN and, elsewhere, on an abstract parameter — we
carry the variance as the numeric payload; the NaN/number split is the
faithful part. -/
def pandasStdSq (xs : List ℚ) : PyFloat :=
  if 2 ≤ xs.length then .num (sampleVar xs) else .nan

/-- Error outcomes of `fetch_comprehensive_data`'s daily branch.
`downloadEmpty` models the `daily_data.empty` early return of source
lines 52-54 (a generic fetch failure, surfaced as `None`).
`insufficientData` is the `InsufficientDataError` named by the
specification; the source defines and raises no such error — the
constructor exists only so the specification's statement can be
expressed and compared. -/
inductive FetchErr
  | downloadEmpty
  | insufficientData
  deriving DecidableEq

/-- The daily standard-deviation computation of
`fetch_comprehensive_data` (source lines 44-61): an empty download
aborts with the generic failure; otherwise `Daily_Return` is derived,
the NaN first row dropped, and `daily_std = Daily_Return.std()` is
computed with no check on the number of observations. -/
def fetchDailyStd (closes : List ℚ) : Except FetchErr PyFloat :=
  if closes.isEmpty then .error .downloadEmpty
  else .ok (pandasStdSq (pctChange100 closes))

/-- `up_days_count` (source line 141): number of unique dates among the
rows labelled UP. -/
def upDaysCount (l : List MergedRow) : ℕ :=
  ((l.filter fun r => r.dayType == DayType.UP).map (·.date)).dedup.length

/-- `down_days_count` (source line 142): number of unique dates among
the rows labelled DOWN. -/
def downDaysCount (l : List MergedRow) : ℕ :=
  ((l.filter fun r => r.dayType == DayType.DOWN).map (·.date)).dedup.length

/-- Number of unique dates of the classified set. -/
def uniqueDaysCount (l : List MergedRow) : ℕ :=
  (l.map (·.date)).dedup.length

/-- `data[data['Day_Type'] == 'UP']` (source line 165). -/
def upDays (l : List MergedRow) : List MergedRow :=
  l.filter fun r => r.dayType == DayType.UP

/-- `data[data['Day_Type'] == 'DOWN']` (source line 166). -/
def downDays (l : List MergedRow) : List MergedRow :=
  l.filter fun r => r.dayType == DayType.DOWN

/-- `rows[rows['Hour'] == hour]` (source lines 173-174). -/
def hourRows (l : List MergedRow) (h : ℕ) : List MergedRow :=
  l.filter fun r => r.hour == h

/-- The non-NaN `Hourly_Return` values of a group of rows — the values
pandas statistics actually aggregate (`skipna=True`). -/
def vals (rows : List MergedRow) : List ℚ :=
  rows.filterMap fun r =>
    match r.hourlyReturn with
    | .num q => some q
    | .nan => none

/-- `group.mean() if len(group) > 0 else np.nan`: NaN when the group is
empty, and also when every value in it is NaN (pandas skips NaN). -/
def meanPF (rows : List MergedRow) : PyFloat :=
  if (vals rows).isEmpty then .nan else .num (listMean (vals rows))

/-- `group.median() if len(group) > 0 else np.nan`. -/
def medianPF (rows : List MergedRow) : PyFloat :=
  if (vals rows).isEmpty then .nan else .num (listMedian (vals rows))

/-- `group.std() if len(group) > 0 else np.nan`: with `ddof=1` this is
NaN for fewer than two values whether or not the guard fires. -/
def stdPF (rows : List MergedRow) : PyFloat :=
  pandasStdSq (vals rows)

/-- NaN-propagating subtraction of Python floats. -/
def subPF : PyFloat → PyFloat → PyFloat
  | .num a, .num b => .num (a - b)
  | _, _ => .nan

/-- `(up.mean() - down.mean()) if (len(up) > 0 and len(down) > 0) else
np.nan` (source line 187). -/
def differencePF (up down : List MergedRow) : PyFloat :=
  if 0 < up.length ∧ 0 < down.length then subPF (meanPF up) (meanPF down)
  else .nan

/-- `(group > 0).mean() * 100 if len(group) > 0 else np.nan` (source
lines 188-189): a NaN value compares as not-greater-than-zero, so the
numerator counts the positive non-NaN values while the denominator
counts every row. -/
def winRatePF (rows : List MergedRow) : PyFloat :=
  if rows.length = 0 then .nan
  else .num ((((vals rows).filter fun q => decide (0 < q)).length : ℚ) / rows.length * 100)

/-- One entry of the `hourly_comparison` mapping built by
`_analyze_hourly_up_down` (source lines 176-190). -/
structure HourStats where
  up_day_avg : PyFloat
  up_day_median : PyFloat
  up_day_std : PyFloat
  up_day_count : ℕ
  down_day_avg : PyFloat
  down_day_median : PyFloat
  down_day_std : PyFloat
  down_day_count : ℕ
  difference : PyFloat
  up_win_rate : PyFloat
  down_win_rate : PyFloat
  deriving DecidableEq

/-- The statistics record of one hour, from the hour's UP group and
DOWN group. -/
def mkHourStats (up down : List MergedRow) : HourStats :=
  { up_day_avg := meanPF up
    up_day_median := medianPF up
    up_day_std := stdPF up
    up_day_count := up.length
    down_day_avg := meanPF down
    down_day_median := medianPF down
    down_day_std := stdPF down
    down_day_count := down.length
    difference := differencePF up down
    up_win_rate := winRatePF up
    down_win_rate := winRatePF down }

/-- `_analyze_hourly_up_down` (source lines 162-192): for each hour of
`range(9, 17)`, the statistics of that hour's UP and DOWN groups,
keyed by the hour. -/
def analyzeHourlyUpDown (l : List MergedRow) : List (ℕ × HourStats) :=
  (List.range' 9 8).map fun h =>
    (h, mkHourStats (hourRows (upDays l) h) (hourRows (downDays l) h))

/-- Python error kinds reachable from `_analyze_bell_curve`.
`zeroDivisionError` is the `ZeroDivisionError` of the integer division
`len(...) / len(daily_returns)` when the population is empty.
`insufficientDataError` is the `InsufficientDataError` named by the
specification; the source defines and raises no such error — the
constructor exists only so the specification's statement can be
expressed and compared. -/
inductive PyErr
  | zeroDivisionError
  | insufficientDataError
  deriving DecidableEq

/-- `data.groupby('Date')['Daily_Return'].first()` (source line 247):
one `Daily_Return` per unique date of the classified set, taken from
the first row carrying that date.  (pandas orders the result by the
group key; every statistic taken of it below is order-invariant, so
first-occurrence order is kept here.) -/
def uniqueDatesReturns (data : List MergedRow) : List (ℕ × ℚ) :=
  ((data.map (·.date)).dedup).map fun d =>
    (d, match data.find? (fun r => r.date == d) with
        | some m => m.dailyReturn
        | none => 0)

/-- `len(rets[|rets| <= t]) / len(rets) * 100` — the empirical coverage
percentage at threshold `t` (source lines 249-251). -/
def coveragePct (rets : List ℚ) (t : ℚ) : ℚ :=
  ((rets.filter fun d => decide (|d| ≤ t)).length : ℚ) / rets.length * 100

/-- The record returned by `_analyze_bell_curve` (source lines
253-268). -/
structure BellCurve where
  one_sigma_actual : ℚ
  one_sigma_theoretical : ℚ
  one_sigma_difference : ℚ
  two_sigma_actual : ℚ
  two_sigma_theoretical : ℚ
  two_sigma_difference : ℚ
  three_sigma_actual : ℚ
  three_sigma_theoretical : ℚ
  three_sigma_difference : ℚ
  total_days : ℕ
  daily_std : ℚ
  deriving DecidableEq

/-- `_analyze_bell_curve` (source lines 243-268): one daily return per
unique date of the classified set, coverage at 1, 2 and 3 standard
deviations against the theoretical normal percentages.  When the
population is empty the integer division `len(...) / 0` raises
`ZeroDivisionError`. -/
def analyzeBellCurve (data : List MergedRow) (daily_std : ℚ) :
    Except PyErr BellCurve :=
  let rets := (uniqueDatesReturns data).map Prod.snd
  if rets.length = 0 then .error .zeroDivisionError
  else .ok
    { one_sigma_actual := coveragePct rets daily_std
      one_sigma_theoretical := 6827 / 100
      one_sigma_difference := coveragePct rets daily_std - 6827 / 100
      two_sigma_actual := coveragePct rets (2 * daily_std)
      two_sigma_theoretical := 9545 / 100
      two_sigma_difference := coveragePct rets (2 * daily_std) - 9545 / 100
      three_sigma_actual := coveragePct rets (3 * daily_std)
      three_sigma_theoretical := 9973 / 100
      three_sigma_difference := coveragePct rets (3 * daily_std) - 9973 / 100
      total_days := rets.length
      daily_std := daily_std }

/-- A classified daily frame built from a list of daily returns, with
consecutive date keys — the shape `fetch_comprehensive_data` produces
after line 59 (each return paired with its `Day_Type`). -/
def mkDailyFromReturns (rets : List ℚ) : List DailyRow :=
  rets.enum.map fun p => { date := p.1, dailyReturn := p.2, dayType := dayTypeOf p.2 }

/-- **C1.** For every (strictly positive, as `pd.cut` requires) standard
deviation and every daily return, the bucket computed by the source's
`pd.cut` classification is the unique one of the four intervals
`[0,s]`, `(s,2s]`, `(2s,3s]`, `(3s,∞)` containing the absolute daily
return, and the boundary values `s`, `2s`, `3s` land in the
lower-indexed bucket. -/
theorem volatility_bucket_partition (s r : ℚ) (hs : 0 < s) :
    (∀ j : Fin 4, stdBucket s r = j ↔ inBucketInterval s j |r|) ∧
    stdBucket s s = 0 ∧ stdBucket s (2 * s) = 1 ∧ stdBucket s (3 * s) = 2 := by
  have habs : (0 : ℚ) ≤ |r| := abs_nonneg r
  refine ⟨?_, ?_, ?_, ?_⟩
  · intro j
    unfold stdBucket inBucketInterval
    split_ifs with h1 h2 h3 <;> fin_cases j <;>
      simp_all <;> first | linarith | (intro h; linarith)
  · unfold stdBucket
    rw [abs_of_pos hs, if_pos le_rfl]
  · unfold stdBucket
    rw [abs_of_pos (by linarith : (0 : ℚ) < 2 * s),
      if_neg (by linarith), if_pos le_rfl]
  · unfold stdBucket
    rw [abs_of_pos (by linarith : (0 : ℚ) < 3 * s),
      if_neg (by linarith), if_neg (by linarith), if_pos le_rfl]

/-- Witness for C1 at `s = 1`, `r = 1/2`. -/
theorem volatility_bucket_partition_witness :
    ((∀ j : Fin 4, stdBucket 1 (1/2) = j ↔ inBucketInterval 1 j |(1/2 : ℚ)|) ∧
      stdBucket 1 1 = 0 ∧ stdBucket 1 (2 * 1) = 1 ∧ stdBucket 1 (3 * 1) = 2) :=
  volatility_bucket_partition 1 (1/2) (by norm_num)

/-- **C3, counterexample.** A single price bar is fewer than 2 bars, yet
the daily branch of `fetch_comprehensive_data` succeeds and silently
yields a NaN standard deviation — no `InsufficientDataError` (indeed no
such error exists in the source). -/
theorem insufficient_bars_silent_nan_counterexample :
    [(100 : ℚ)].length < 2 ∧ fetchDailyStd [100] = .ok PyFloat.nan := by
  exact ⟨by decide, rfl⟩

/-- **C3, amended.** With zero bars the fetch aborts with the generic
empty-download failure (not an `InsufficientDataError`); with exactly
one bar no error is raised at all and the standard deviation is
silently NaN. -/
theorem insufficient_bars_behavior (closes : List ℚ) :
    (closes = [] → fetchDailyStd closes = .error FetchErr.downloadEmpty) ∧
    (closes.length = 1 → fetchDailyStd closes = .ok PyFloat.nan) := by
  constructor
  · rintro rfl; rfl
  · intro h1
    obtain ⟨c, rfl⟩ := List.length_eq_one.mp h1
    rfl

/-- Witness for the C3 amendment at the empty bar list. -/
theorem insufficient_bars_behavior_witness :
    fetchDailyStd ([] : List ℚ) = .error FetchErr.downloadEmpty :=
  (insufficient_bars_behavior []).1 rfl

/-- **C4, counterexample.** On an empty population the bell-curve
validator fails with `ZeroDivisionError` (the integer division
`len(...) / len(daily_returns)` with a zero denominator), which is not
the `InsufficientDataError` the claim names. -/
theorem bell_curve_empty_error_kind_counterexample :
    analyzeBellCurve [] 1 = .error PyErr.zeroDivisionError ∧
    PyErr.zeroDivisionError ≠ PyErr.insufficientDataError := by
  exact ⟨rfl, by decide⟩

/-- **C4, amended.** On an empty classified set (hence an empty
daily-return population) the bell-curve validator aborts, but by
raising `ZeroDivisionError`; the source defines no
`InsufficientDataError`. -/
theorem bell_curve_empty_zero_division (data : List MergedRow) (s : ℚ)
    (hd : data = []) :
    analyzeBellCurve data s = .error PyErr.zeroDivisionError := by
  subst hd; rfl

/-- Witness for the C4 amendment at the empty set and `s = 5`. -/
theorem bell_curve_empty_zero_division_witness :
    analyzeBellCurve [] 5 = .error PyErr.zeroDivisionError :=
  bell_curve_empty_zero_division [] 5 rfl

/-- **C6.** A day is labelled UP exactly when its daily return is
nonnegative (zero counts as UP), and on the daily-return series
`[+1, −1, +1, −1, +1]` the labels are `[UP, DOWN, UP, DOWN, UP]` with
`up_days_count = 3` and `down_days_count = 2` once every day
contributes a market-hours bar. -/
theorem direction_convention_and_series :
    (∀ r : ℚ, dayTypeOf r = DayType.UP ↔ 0 ≤ r) ∧
    (mkDailyFromReturns [1, -1, 1, -1, 1]).map (·.dayType)
      = [DayType.UP, .DOWN, .UP, .DOWN, .UP] ∧
    upDaysCount (mergeAndClassify (mkDailyFromReturns [1, -1, 1, -1, 1])
      ((List.range 5).map fun d =>
        { date := d, hour := 10, hourlyReturn := PyFloat.num 1 })) = 3 ∧
    downDaysCount (mergeAndClassify (mkDailyFromReturns [1, -1, 1, -1, 1])
      ((List.range 5).map fun d =>
        { date := d, hour := 10, hourlyReturn := PyFloat.num 1 })) = 2 := by
  refine ⟨?_, by decide, by decide, by decide⟩
  intro r
  unfold dayTypeOf
  split_ifs with h <;> simp [h]

/-- Witness for C6: zero daily return is labelled UP. -/
theorem direction_convention_witness : dayTypeOf 0 = DayType.UP :=
  (direction_convention_and_series.1 0).mpr le_rfl

/-- **C7.** The market-hours filter keeps a joined observation exactly
when its hour lies in the inclusive window `[9, 16]`; in particular a
day with bars at hours 8, 9, 10 and 17 contributes exactly the hour-9
and hour-10 bars to the classified output. -/
theorem market_hours_filter_inclusive :
    (∀ (l : List MergedRow) (r : MergedRow),
      r ∈ marketHoursFilter l ↔ r ∈ l ∧ 9 ≤ r.hour ∧ r.hour ≤ 16) ∧
    (mergeAndClassify [{ date := 0, dailyReturn := 1, dayType := .UP }]
      [{ date := 0, hour := 8, hourlyReturn := .num 1 },
       { date := 0, hour := 9, hourlyReturn := .num 1 },
       { date := 0, hour := 10, hourlyReturn := .num 1 },
       { date := 0, hour := 17, hourlyReturn := .num 1 }]).map (·.hour)
      = [9, 10] := by
  refine ⟨?_, by decide⟩
  intro l r
  simp [marketHoursFilter, List.mem_filter]

/-- Witness for C7: an hour-10 row survives the filter. -/
theorem market_hours_filter_inclusive_witness :
    ({ date := 0, hour := 10, hourlyReturn := PyFloat.num 1,
       dayType := .UP, dailyReturn := 1 } : MergedRow)
      ∈ marketHoursFilter
        [{ date := 0, hour := 10, hourlyReturn := PyFloat.num 1,
           dayType := .UP, dailyReturn := 1 }] :=
  (market_hours_filter_inclusive.1 _ _).mpr ⟨by decide, by decide, by decide⟩

/-- The intraday part of a merged row (the columns the merge copied
from the hourly frame). -/
def hourlyPart (m : MergedRow) : HourlyRow :=
  { date := m.date, hour := m.hour, hourlyReturn := m.hourlyReturn }

/-- **C5.** The inner merge never errors (it is a total function) and
its output is exactly the intraday observations whose date has a
matching daily observation, in order, each decorated with its daily
match — unmatched observations are silently dropped. -/
theorem merge_keeps_exactly_matched (daily : List DailyRow) (hourly : List HourlyRow) :
    (mergeInner daily hourly).map hourlyPart
      = hourly.filter fun h => (findDaily daily h.date).isSome := by
  induction hourly with
  | nil => rfl
  | cons h t ih =>
    unfold mergeInner at ih ⊢
    rw [List.filterMap_cons, List.filter_cons]
    cases hfd : findDaily daily h.date with
    | none => simpa [hfd] using ih
    | some d => simpa [hfd, hourlyPart] using ih

/-- Witness for C5 on a one-row frame whose date has no daily match. -/
theorem merge_keeps_exactly_matched_witness :
    (mergeInner [] [{ date := 3, hour := 9, hourlyReturn := PyFloat.num 1 }]).map hourlyPart
      = ([{ date := 3, hour := 9, hourlyReturn := PyFloat.num 1 }] : List HourlyRow).filter
          (fun h => (findDaily [] h.date).isSome) :=
  merge_keeps_exactly_matched [] [{ date := 3, hour := 9, hourlyReturn := PyFloat.num 1 }]

/-- **C2, counterexample.** On a classified set with one UP row at hour
9 and no DOWN rows, the hour-9 DOWN group is empty and
`_analyze_hourly_up_down` reports the value `np.nan` — NaN itself, not
a sentinel distinct from NaN — for its mean, median and standard
deviation, with count 0. -/
theorem undefined_sentinel_counterexample :
    ((analyzeHourlyUpDown
        [{ date := 0, hour := 9, hourlyReturn := PyFloat.num 1,
           dayType := .UP, dailyReturn := 2 }]).lookup 9).map
      (fun s => (s.down_day_avg, s.down_day_median, s.down_day_std, s.down_day_count))
      = some (PyFloat.nan, PyFloat.nan, PyFloat.nan, 0) := by
  decide

/-- Looking a key up in an association list built by pairing each
element of `List.range' a n` with a value finds that key's value. -/
lemma lookup_map_range {β : Type} (g : ℕ → β) :
    ∀ (a n h : ℕ), h ∈ List.range' a n →
      ((List.range' a n).map fun x => (x, g x)).lookup h = some (g h) := by
  intro a n
  induction n generalizing a with
  | zero => intro h hh; simp [List.range'] at hh
  | succ n ih =>
    intro h hh
    rw [List.range'_succ] at hh ⊢
    rcases List.mem_cons.mp hh with rfl | hh'
    · simp [List.lookup]
    · have hne : h ≠ a := by
        have := (List.mem_range'_1.mp hh').1
        omega
      rw [List.map_cons]
      have hb : (h == a) = false := beq_eq_false_iff_ne.mpr hne
      simp only [List.lookup, hb]
      exact ih (a + 1) h hh'

/-- **C2, amended.** For every classified set and every hour of the
trading window, an hour-by-direction group with zero observations is
reported with `np.nan` (NaN — which *is* the empty-group sentinel the
code uses) for mean, median and standard deviation, together with
count 0. -/
theorem empty_group_nan_stats (l : List MergedRow) (h : ℕ)
    (hmem : h ∈ List.range' 9 8) :
    ∃ s, (analyzeHourlyUpDown l).lookup h = some s ∧
      (hourRows (upDays l) h = [] →
        s.up_day_avg = .nan ∧ s.up_day_median = .nan ∧
        s.up_day_std = .nan ∧ s.up_day_count = 0) ∧
      (hourRows (downDays l) h = [] →
        s.down_day_avg = .nan ∧ s.down_day_median = .nan ∧
        s.down_day_std = .nan ∧ s.down_day_count = 0) := by
  refine ⟨mkHourStats (hourRows (upDays l) h) (hourRows (downDays l) h), ?_, ?_, ?_⟩
  · exact lookup_map_range
      (fun x => mkHourStats (hourRows (upDays l) x) (hourRows (downDays l) x)) 9 8 h hmem
  · intro he
    rw [he]
    exact ⟨rfl, rfl, rfl, rfl⟩
  · intro he
    rw [he]
    exact ⟨rfl, rfl, rfl, rfl⟩

/-- Witness for the C2 amendment: the hour-10 groups of a one-row UP
set are empty in the DOWN direction (and at hour 10 in both). -/
theorem empty_group_nan_stats_witness :
    ∃ s, (analyzeHourlyUpDown
        [{ date := 0, hour := 9, hourlyReturn := PyFloat.num 1,
           dayType := .UP, dailyReturn := 2 }]).lookup 10 = some s ∧
      (hourRows (upDays
          [{ date := 0, hour := 9, hourlyReturn := PyFloat.num 1,
             dayType := .UP, dailyReturn := 2 }]) 10 = [] →
        s.up_day_avg = .nan ∧ s.up_day_median = .nan ∧
        s.up_day_std = .nan ∧ s.up_day_count = 0) ∧
      (hourRows (downDays
          [{ date := 0, hour := 9, hourlyReturn := PyFloat.num 1,
             dayType := .UP, dailyReturn := 2 }]) 10 = [] →
        s.down_day_avg = .nan ∧ s.down_day_median = .nan ∧
        s.down_day_std = .nan ∧ s.down_day_count = 0) :=
  empty_group_nan_stats _ 10 (by decide)

/-- Every row of the inner merge carries the direction label of the
daily row matched to its date. -/
lemma dayType_of_mem_mergeInner {daily : List DailyRow} {hourly : List HourlyRow}
    {m : MergedRow} (hm : m ∈ mergeInner daily hourly) :
    ∃ d, findDaily daily m.date = some d ∧ m.dayType = d.dayType := by
  unfold mergeInner at hm
  rw [List.mem_filterMap] at hm
  obtain ⟨h, _, hfm⟩ := hm
  cases hfd : findDaily daily h.date with
  | none => rw [hfd] at hfm; simp at hfm
  | some d =>
    rw [hfd] at hfm
    simp only [Option.map_some', Option.some.injEq] at hfm
    subst hfm
    exact ⟨d, hfd, rfl⟩

/-- Every row of the full classification pipeline carries the direction
label of the daily row matched to its date. -/
lemma dayType_of_mem_pipeline {daily : List DailyRow} {hourly : List HourlyRow}
    {m : MergedRow} (hm : m ∈ mergeAndClassify daily hourly) :
    ∃ d, findDaily daily m.date = some d ∧ m.dayType = d.dayType := by
  unfold mergeAndClassify marketHoursFilter dropnaHourly at hm
  exact dayType_of_mem_mergeInner (List.mem_of_mem_filter (List.mem_of_mem_filter hm))

/-- If the direction label of a row is a function of its date, the
unique UP dates and unique DOWN dates partition the unique dates. -/
lemma up_down_counts_of_consistent (l : List MergedRow)
    (hcons : ∀ m1 ∈ l, ∀ m2 ∈ l, m1.date = m2.date → m1.dayType = m2.dayType) :
    upDaysCount l + downDaysCount l = uniqueDaysCount l := by
  classical
  unfold upDaysCount downDaysCount uniqueDaysCount
  rw [← List.card_toFinset, ← List.card_toFinset, ← List.card_toFinset]
  have hdisj :
      Disjoint ((l.filter fun r => r.dayType == DayType.UP).map (·.date)).toFinset
        ((l.filter fun r => r.dayType == DayType.DOWN).map (·.date)).toFinset := by
    rw [Finset.disjoint_left]
    intro d hdA hdB
    simp only [List.mem_toFinset, List.mem_map, List.mem_filter, beq_iff_eq] at hdA hdB
    obtain ⟨m1, ⟨h1l, h1t⟩, h1d⟩ := hdA
    obtain ⟨m2, ⟨h2l, h2t⟩, h2d⟩ := hdB
    have hsame := hcons m1 h1l m2 h2l (h1d.trans h2d.symm)
    rw [h1t, h2t] at hsame
    exact DayType.noConfusion hsame
  have hunion :
      ((l.filter fun r => r.dayType == DayType.UP).map (·.date)).toFinset ∪
        ((l.filter fun r => r.dayType == DayType.DOWN).map (·.date)).toFinset
      = (l.map (·.date)).toFinset := by
    ext d
    simp only [Finset.mem_union, List.mem_toFinset, List.mem_map, List.mem_filter,
      beq_iff_eq]
    constructor
    · rintro (⟨m, ⟨hml, _⟩, rfl⟩ | ⟨m, ⟨hml, _⟩, rfl⟩) <;> exact ⟨m, hml, rfl⟩
    · rintro ⟨m, hml, rfl⟩
      cases hmt : m.dayType with
      | UP => exact Or.inl ⟨m, ⟨hml, hmt⟩, rfl⟩
      | DOWN => exact Or.inr ⟨m, ⟨hml, hmt⟩, rfl⟩
  rw [← hunion, Finset.card_union_of_disjoint hdisj]

/-- **C8.** For every daily and hourly input, `up_days_count` plus
`down_days_count` computed over the classified set equals the number of
unique classified dates: no date carries both labels and none carries
neither. -/
theorem up_down_counts_partition_dates (daily : List DailyRow) (hourly : List HourlyRow) :
    upDaysCount (mergeAndClassify daily hourly)
      + downDaysCount (mergeAndClassify daily hourly)
      = uniqueDaysCount (mergeAndClassify daily hourly) := by
  apply up_down_counts_of_consistent
  intro m1 h1 m2 h2 hdate
  obtain ⟨d1, hd1, ht1⟩ := dayType_of_mem_pipeline h1
  obtain ⟨d2, hd2, ht2⟩ := dayType_of_mem_pipeline h2
  rw [hdate] at hd1
  rw [hd1] at hd2
  injection hd2 with hd
  subst hd
  rw [ht1, ht2]

/-- Witness for C8 on a two-day input with one UP and one DOWN date. -/
theorem up_down_counts_partition_dates_witness :
    upDaysCount (mergeAndClassify
        [{ date := 0, dailyReturn := 1, dayType := .UP },
         { date := 1, dailyReturn := -1, dayType := .DOWN }]
        [{ date := 0, hour := 10, hourlyReturn := PyFloat.num 1 },
         { date := 1, hour := 11, hourlyReturn := PyFloat.num (-1) }])
      + downDaysCount (mergeAndClassify
        [{ date := 0, dailyReturn := 1, dayType := .UP },
         { date := 1, dailyReturn := -1, dayType := .DOWN }]
        [{ date := 0, hour := 10, hourlyReturn := PyFloat.num 1 },
         { date := 1, hour := 11, hourlyReturn := PyFloat.num (-1) }])
      = uniqueDaysCount (mergeAndClassify
        [{ date := 0, dailyReturn := 1, dayType := .UP },
         { date := 1, dailyReturn := -1, dayType := .DOWN }]
        [{ date := 0, hour := 10, hourlyReturn := PyFloat.num 1 },
         { date := 1, hour := 11, hourlyReturn := PyFloat.num (-1) }]) :=
  up_down_counts_partition_dates _ _

/-- Empirical coverage is monotone in the threshold. -/
lemma coveragePct_mono (rets : List ℚ) {t t' : ℚ} (h : t ≤ t') :
    coveragePct rets t ≤ coveragePct rets t' := by
  unfold coveragePct
  have hlen : (rets.filter fun d => decide (|d| ≤ t)).length
      ≤ (rets.filter fun d => decide (|d| ≤ t')).length := by
    apply List.Sublist.length_le
    apply List.monotone_filter_right
    intro a ha
    simp only [decide_eq_true_eq] at ha ⊢
    exact le_trans ha h
  rcases Nat.eq_zero_or_pos rets.length with h0 | hpos
  · obtain rfl := List.length_eq_zero.mp h0
    simp
  · have hL : (0 : ℚ) < rets.length := by exact_mod_cast hpos
    apply mul_le_mul_of_nonneg_right _ (by norm_num : (0 : ℚ) ≤ 100)
    apply div_le_div_of_nonneg_right _ hL.le
    exact_mod_cast hlen

/-- **C9.** For every non-empty classified set and nonnegative standard
deviation the bell-curve validator succeeds and its coverage
percentages are monotone non-decreasing in the threshold multiplier:
coverage at 1σ ≤ coverage at 2σ ≤ coverage at 3σ. -/
theorem bell_curve_coverage_monotone (data : List MergedRow) (s : ℚ)
    (hs : 0 ≤ s) (hne : data ≠ []) :
    ∃ bc, analyzeBellCurve data s = .ok bc ∧
      bc.one_sigma_actual ≤ bc.two_sigma_actual ∧
      bc.two_sigma_actual ≤ bc.three_sigma_actual := by
  have hrets : ((uniqueDatesReturns data).map Prod.snd) ≠ [] := by
    intro hnil
    apply hne
    have h1 := List.map_eq_nil_iff.mp hnil
    unfold uniqueDatesReturns at h1
    have h2 := List.map_eq_nil_iff.mp h1
    have h3 := (List.dedup_eq_nil _).mp h2
    exact List.map_eq_nil_iff.mp h3
  have hcond : ¬((uniqueDatesReturns data).map Prod.snd).length = 0 := by
    simpa [List.length_eq_zero] using hrets
  simp only [analyzeBellCurve]
  rw [if_neg hcond]
  refine ⟨_, rfl, ?_, ?_⟩
  · exact coveragePct_mono _ (by linarith)
  · exact coveragePct_mono _ (by linarith)

/-- Witness for C9 on a one-row classified set with `s = 1`. -/
theorem bell_curve_coverage_monotone_witness :
    ∃ bc, analyzeBellCurve
        [{ date := 0, hour := 10, hourlyReturn := PyFloat.num 1,
           dayType := .UP, dailyReturn := 1 }] 1 = .ok bc ∧
      bc.one_sigma_actual ≤ bc.two_sigma_actual ∧
      bc.two_sigma_actual ≤ bc.three_sigma_actual :=
  bell_curve_coverage_monotone _ 1 (by norm_num) (by decide)

/-- **C10.** The bell-curve validator's population is exactly the
unique dates of the classified set it is given — one `Daily_Return`
per such date — and on a non-empty set its reported `total_days` is the
number of those unique dates (not the length of the daily history from
which the standard deviation came, which is not even an input of
`_analyze_bell_curve`). -/
theorem bell_curve_population_unique_dates (data : List MergedRow) (s : ℚ)
    (hne : data ≠ []) :
    (uniqueDatesReturns data).map Prod.fst = (data.map (·.date)).dedup ∧
    ∃ bc, analyzeBellCurve data s = .ok bc ∧
      bc.total_days = ((data.map (·.date)).dedup).length := by
  constructor
  · unfold uniqueDatesReturns
    rw [List.map_map]
    exact List.map_id _
  · have hrets : ((uniqueDatesReturns data).map Prod.snd) ≠ [] := by
      intro hnil
      apply hne
      have h1 := List.map_eq_nil_iff.mp hnil
      unfold uniqueDatesReturns at h1
      have h2 := List.map_eq_nil_iff.mp h1
      have h3 := (List.dedup_eq_nil _).mp h2
      exact List.map_eq_nil_iff.mp h3
    have hcond : ¬((uniqueDatesReturns data).map Prod.snd).length = 0 := by
      simpa [List.length_eq_zero] using hrets
    simp only [analyzeBellCurve]
    rw [if_neg hcond]
    refine ⟨_, rfl, ?_⟩
    simp [uniqueDatesReturns]

/-- Witness for C10 on a two-row, one-date classified set with `s = 2`. -/
theorem bell_curve_population_unique_dates_witness :
    ((uniqueDatesReturns
        [{ date := 4, hour := 10, hourlyReturn := PyFloat.num 1,
           dayType := .UP, dailyReturn := 3 },
         { date := 4, hour := 11, hourlyReturn := PyFloat.num 2,
           dayType := .UP, dailyReturn := 3 }]).map Prod.fst
      = (([{ date := 4, hour := 10, hourlyReturn := PyFloat.num 1,
             dayType := .UP, dailyReturn := 3 },
           { date := 4, hour := 11, hourlyReturn := PyFloat.num 2,
             dayType := .UP, dailyReturn := 3 }] : List MergedRow).map (·.date)).dedup) ∧
    ∃ bc, analyzeBellCurve
        [{ date := 4, hour := 10, hourlyReturn := PyFloat.num 1,
           dayType := .UP, dailyReturn := 3 },
         { date := 4, hour := 11, hourlyReturn := PyFloat.num 2,
           dayType := .UP, dailyReturn := 3 }] 2 = .ok bc ∧
      bc.total_days
        = ((([{ date := 4, hour := 10, hourlyReturn := PyFloat.num 1,
                dayType := .UP, dailyReturn := 3 },
              { date := 4, hour := 11, hourlyReturn := PyFloat.num 2,
                dayType := .UP, dailyReturn := 3 }] : List MergedRow).map (·.date)).dedup).length :=
  bell_curve_population_unique_dates _ 2 (by decide)
